import Mathlib

/-!
Verification of the Super_Clean auto-dub pipeline (Python sources under
`app/services` and `app/tasks`) against its natural-language specification.

Shallow embedding conventions:
* timestamps and confidences are rationals (`ℚ`);
* Python dicts become structures; a dict key that is absent on some return
  path becomes an `Option` field;
* a Python function that can raise becomes `Except String`;
* every external collaborator (gender classifier, Sarvam STT/translate/TTS,
  demucs separation, ffmpeg) is a parameter of the embedded function, so a
  call site that never inspects the parameter provably never "calls" it;
* `round(x, 2)` / `round(x, 3)` are modelled as rounding to the nearest
  multiple of 10⁻²/10⁻³ (Mathlib `round`, half away from the lower grid
  point; CPython rounds half to even, but no theorem below depends on the
  direction of an exact tie and every concrete input used is tie-free).
-/

namespace AutoDub

/-- Rounding to two decimal places, as in Python `round(x, 2)`. -/
def round2 (q : ℚ) : ℚ := ((round (100 * q) : ℤ) : ℚ) / 100

/-- Rounding to three decimal places, as in Python `round(x, 3)`. -/
def round3 (q : ℚ) : ℚ := ((round (1000 * q) : ℤ) : ℚ) / 1000

/-! ### `app/services/stt.py` — `speech_to_text` -/

/-- What the silence probe of `speech_to_text` (the `wave`/`audioop` block)
observes about a chunk file: whether the file exists, whether it has any
frames, its RMS energy, and whether the probe itself ran without raising
(`probeOk = false` models the `except silence_err` branch, which falls
through to the API call). -/
structure AudioProbe where
  fileOk : Bool
  framesNonempty : Bool
  rms : ℕ
  probeOk : Bool
deriving DecidableEq, Repr

/-- The dict returned by `speech_to_text`.  The two skip paths return no
`detected_lang`/`confidence` keys, hence the `Option`. -/
structure SttResult where
  text : String
  detected_lang : Option String
  confidence : Option ℚ
  start_time : ℚ
  end_time : ℚ
  speaker_no : String
  overlap : Bool
  gender : String
deriving DecidableEq, Repr

/-- The silence filter of `speech_to_text`: the skip fires only when the
probe ran, the file exists, it has frames, and the RMS is below 200. -/
def silentSkip (probe : AudioProbe) : Bool :=
  probe.probeOk && probe.fileOk && probe.framesNonempty && decide (probe.rms < 200)

/-- `speech_to_text` from `app/services/stt.py`.
`sttApi` is the Sarvam speech-to-text collaborator after its retry loop:
`none` means all attempts failed (the function then raises), `some t` is
the returned transcript.  `identify` is `LanguageIdentifier.identify`
(detected language and confidence; the unused `reason` is dropped), and
`translateApi` is `sarvam_translate text source target` (total: it returns
the input text when its own retries are exhausted). -/
def speech_to_text (probe : AudioProbe) (sttApi : Option String)
    (identify : String → String × ℚ)
    (translateApi : String → String → String → String)
    (start_time end_time : ℚ) (speaker_no : String) (overlap : Bool)
    (gender : String) (target_lang : String) : Except String SttResult :=
  if end_time - start_time < 1/2 then
    .ok { text := "", detected_lang := none, confidence := none,
          start_time := start_time, end_time := end_time,
          speaker_no := speaker_no, overlap := overlap, gender := gender }
  else if silentSkip probe then
    .ok { text := "", detected_lang := none, confidence := none,
          start_time := start_time, end_time := end_time,
          speaker_no := speaker_no, overlap := overlap, gender := gender }
  else
    match sttApi with
    | none => .error "Sarvam STT Error after 3 attempts"
    | some transcript =>
      let det := (identify transcript).1
      let conf := (identify transcript).2
      let translated :=
        if det = target_lang then transcript
        else translateApi transcript det target_lang
      .ok { text := translated, detected_lang := some det,
            confidence := some conf, start_time := start_time,
            end_time := end_time, speaker_no := speaker_no,
            overlap := overlap, gender := gender }

/-! ### `app/services/tts.py` — `text_to_speech` -/

/-- The dict returned by `text_to_speech` (and consumed by stage 3).  The
two null-audio return paths omit the `gender` key, hence the `Option`. -/
structure ChunkResult where
  audio_path : Option String
  start_time : ℚ
  end_time : ℚ
  speaker_no : String
  overlap : Bool
  gender : Option String
deriving DecidableEq, Repr

/-- The `clean_text` filter of `text_to_speech`:
`"".join(c for c in aligned_text if c.isalnum())` (alphanumeric test on the
ASCII range; all inputs evaluated below are ASCII). -/
def cleanText (s : String) : List Char := s.toList.filter Char.isAlphanum

/-- The voice-selection block of `text_to_speech`: the Sarvam voice for a
gender string, defaulting to the male voice on anything but "female". -/
def voiceFor (gender : String) : String :=
  if gender.toLower = "female" then "anushka" else "arjun"

/-- `text_to_speech` from `app/services/tts.py`.
`ttsApi text voice` is the Sarvam TTS collaborator together with the
save/speed-adjust block: `none` models any raised error (API non-200,
missing `audios`, write failure), `some p` the path of the written (and
possibly `_synced`) artifact.  Empty cleaned input returns before the
collaborator is consulted; note that this path and the success path round
the timestamps to two decimals while the failure path returns them raw. -/
def text_to_speech (ttsApi : String → String → Option String)
    (aligned_text : String) (start_time end_time : ℚ) (speaker_no : String)
    (overlap : Bool) (gender : String) : ChunkResult :=
  if (cleanText aligned_text).isEmpty then
    { audio_path := none, start_time := round2 start_time,
      end_time := round2 end_time, speaker_no := speaker_no,
      overlap := overlap, gender := none }
  else
    match ttsApi aligned_text (voiceFor gender) with
    | none =>
      { audio_path := none, start_time := start_time, end_time := end_time,
        speaker_no := speaker_no, overlap := overlap, gender := none }
    | some path =>
      { audio_path := some path, start_time := round2 start_time,
        end_time := round2 end_time, speaker_no := speaker_no,
        overlap := overlap, gender := some gender }

/-! ### Word splitting (Python `str.split()` on whitespace) -/

/-- Whitespace test used by the word splitter. -/
def wsChar (c : Char) : Bool := c.isWhitespace

/-- Split a character list into maximal whitespace-free words, discarding
all whitespace — the behaviour of Python `str.split()` with no
argument. -/
def splitWs : List Char → List (List Char)
  | [] => []
  | c :: cs =>
    if wsChar c then splitWs cs
    else (c :: cs.takeWhile (fun d => !wsChar d))
        :: splitWs (cs.dropWhile (fun d => !wsChar d))
termination_by l => l.length
decreasing_by
  · simp only [List.length_cons]; omega
  · exact Nat.lt_succ_of_le (List.dropWhile_sublist _).length_le

/-- Join words with single spaces (Python `" ".join(words)`). -/
def joinWs : List (List Char) → List Char
  | [] => []
  | [w] => w
  | w :: w' :: ws => w ++ ' ' :: joinWs (w' :: ws)

/-- Number of whitespace-separated words of a string. -/
def wordCount (s : String) : ℕ := (splitWs s.toList).length

/-! ### `app/services/translation_matcher.py` — `task_align`'s collaborator -/

/-- The dict produced by the alignment step and consumed by `task_tts`. -/
structure AlignResult where
  aligned_text : String
  start_time : ℚ
  end_time : ℚ
  speaker_no : String
  overlap : Bool
  gender : String
deriving DecidableEq, Repr

/-- Modelled from the spec: the fixed non-empty placeholder substituted
when the word budget rounds to zero (`translation_matcher` is imported by
`task_align` in `app/tasks/stage2_tasks.py` but its module is not in the
source tree; spec §4.3 step 4 only requires a fixed non-empty string). -/
def placeholderText : String := "..."

/-- Modelled from the spec: `translation_matcher`, the duration-budgeted
alignment step.  The module `app/services/translation_matcher.py` is
absent from the source tree (only its caller `task_align` exists), so this
follows spec §4.3 step 4 verbatim: with window duration `D = end - start`
and speaking rate 3 words/sec the aligned text keeps at most `⌊D * 3⌋`
words, overflow is truncated from the end, and a zero budget yields the
fixed placeholder instead of an empty string. -/
def translation_matcher (text : String) (start_time end_time : ℚ)
    (speaker_no : String) (overlap : Bool) (gender : String) : AlignResult :=
  let budget : ℕ := (⌊(end_time - start_time) * 3⌋).toNat
  let ws := splitWs text.toList
  let aligned :=
    if budget = 0 then placeholderText else String.mk (joinWs (ws.take budget))
  { aligned_text := aligned, start_time := start_time, end_time := end_time,
    speaker_no := speaker_no, overlap := overlap, gender := gender }

/-! ### `app/tasks/stage2_tasks.py` — the per-chunk task chain -/

/-- A chunk dict as dispatched by `process_stage2` (timing and speaker
metadata plus the optionally pre-assigned gender). -/
structure Chunk where
  chunk_path : String
  start_time : ℚ
  end_time : ℚ
  speaker_no : String
  overlap : Bool
  gender : Option String
deriving DecidableEq, Repr

/-- `task_gender`: keep a truthy pre-assigned gender that is not
`"unknown"`, else consult the detector (`predict`, `none` modelling a
raised exception) with fallback `"male"`.  Never fails. -/
def task_gender (predict : String → Option (String × ℚ)) (c : Chunk) : Chunk :=
  if (match c.gender with
      | some g => g != "" && g != "unknown"
      | none => false) then c
  else
    match predict c.chunk_path with
    | some p => { c with gender := some p.1 }
    | none => { c with gender := some "male" }

/-- `task_stt`: forwards the chunk to `speech_to_text` with gender default
`"unknown"`; an exception raised there propagates (there is no handler in
`task_stt`). -/
def task_stt (probes : String → AudioProbe) (sttApi : String → Option String)
    (identify : String → String × ℚ)
    (translateApi : String → String → String → String) (c : Chunk) :
    Except String SttResult :=
  speech_to_text (probes c.chunk_path) (sttApi c.chunk_path) identify
    translateApi c.start_time c.end_time c.speaker_no c.overlap
    (c.gender.getD "unknown") "en"

/-- `task_align`: forwards the STT result to `translation_matcher`. -/
def task_align (r : SttResult) : AlignResult :=
  translation_matcher r.text r.start_time r.end_time r.speaker_no r.overlap
    r.gender

/-- `task_tts`: forwards the aligned result to `text_to_speech`. -/
def task_tts (ttsApi : String → String → Option String) (a : AlignResult) :
    ChunkResult :=
  text_to_speech ttsApi a.aligned_text a.start_time a.end_time a.speaker_no
    a.overlap a.gender

/-- All collaborators of one chunk chain, bundled. -/
structure PipelineEnv where
  predict : String → Option (String × ℚ)
  probes : String → AudioProbe
  sttApi : String → Option String
  identify : String → String × ℚ
  translateApi : String → String → String → String
  ttsApi : String → String → Option String

/-- One dispatched unit of work: the Celery chain
`task_gender → task_stt → task_align → task_tts` built in
`process_stage2`.  An exception in any link aborts the rest of the
chain. -/
def chunkUnit (env : PipelineEnv) (c : Chunk) : Except String ChunkResult :=
  match task_stt env.probes env.sttApi env.identify env.translateApi
      (task_gender env.predict c) with
  | .error e => .error e
  | .ok r => .ok (task_tts env.ttsApi (task_align r))

/-- The Celery chord barrier over the dispatched units: with Celery's
default options the chord body receives the list of results only if every
header task succeeded; any failed header task turns the callback into an
error (`ChordError`). -/
def chordBarrier : List (Except String ChunkResult) →
    Except String (List ChunkResult)
  | [] => .ok []
  | u :: us =>
    match u with
    | .error e => .error e
    | .ok x =>
      match chordBarrier us with
      | .ok xs => .ok (x :: xs)
      | .error e => .error e

/-! ### `process_stage2` — speaker-level gender majority vote -/

/-- The votes collected for one speaker: one gender per chunk of that
speaker whose `detector.predict` call did not raise, in chunk order
(`speaker_votes[speaker]` in `process_stage2`). -/
def speakerVotes (predict : String → Option (String × ℚ))
    (chunks : List Chunk) (speaker : String) : List String :=
  chunks.filterMap
    (fun c =>
      if c.speaker_no = speaker then (predict c.chunk_path).map Prod.fst
      else none)

/-- The same per-speaker votes, but keeping the classifier confidences the
detector reported.  `process_stage2` discards them (`speaker_votes` stores
bare gender strings); the spec's tie-break reads them, so this is the view
`specCanonicalGender` is evaluated on. -/
def speakerVotesWithConf (predict : String → Option (String × ℚ))
    (chunks : List Chunk) (speaker : String) : List (String × ℚ) :=
  chunks.filterMap
    (fun c =>
      if c.speaker_no = speaker then predict c.chunk_path else none)

/-- `Counter(votes).most_common(1)[0][0]`: the gender of maximal
multiplicity; on ties, `Counter` iterates keys in first-insertion order
and `most_common` sorts stably by count, so the tied gender whose first
occurrence in `votes` is earliest wins.  That element is exactly the first
element of `votes` whose count is maximal, i.e. `argmax` of the count. -/
def mostCommonVote (votes : List String) : Option String :=
  votes.argmax (fun g => votes.count g)

/-- `speaker_final_gender[speaker]` as computed in `process_stage2`
(defaulting to `"male"` when the speaker has no valid vote). -/
def speaker_final_gender (predict : String → Option (String × ℚ))
    (chunks : List Chunk) (speaker : String) : String :=
  (mostCommonVote (speakerVotes predict chunks speaker)).getD "male"

/-- Follows the spec's words, not the source (for comparison with
`speaker_final_gender`): average classifier confidence of the votes for
gender `g`. -/
def avgConf (votes : List (String × ℚ)) (g : String) : ℚ :=
  let cs := (votes.filter (fun v => v.1 = g)).map Prod.snd
  cs.sum / cs.length

/-- Follows the spec's words, not the source (for comparison with
`speaker_final_gender`): "Canonical gender = statistical mode of the vote
multiset; ties broken by higher average confidence." -/
def specCanonicalGender (votes : List (String × ℚ)) : Option String :=
  let genders := votes.map Prod.fst
  let maxCount := (genders.map (fun g => genders.count g)).foldr max 0
  let tied := genders.filter (fun g => genders.count g = maxCount)
  tied.argmax (avgConf votes)

/-! ### Level-1 reassembly (`process_stage3` → `ChunkingManager`) -/

/-- Modelled from the spec: per-chunk artifact duration during level-1
reassembly.  `process_stage3` calls `ChunkingManager.chunk_to_segments`,
which is absent from the source tree (`app/services/chunker.py` defines a
`ChunkingManager` without that method), so this follows spec §4.4:
a chunk with a synthesized artifact contributes that artifact's duration
(`audioDur` maps an artifact path to its duration), and a null-audio chunk
is replaced by generated silence spanning exactly its `[start, end]`. -/
def chunkFill (audioDur : String → ℚ) (r : ChunkResult) : ℚ :=
  match r.audio_path with
  | some p => audioDur p
  | none => r.end_time - r.start_time

/-- Modelled from the spec: the sort-by-start-time step of level-1
reassembly (spec §4.4 "group ChunkResults by originating segment, sort by
start time").  A stable insertion sort models Python's stable `sorted`. -/
def sortByStart (rs : List ChunkResult) : List ChunkResult :=
  List.insertionSort (fun a b => a.start_time ≤ b.start_time) rs

/-- Modelled from the spec: duration of the artifact assembled for one
segment — the chunks sorted by start time, their artifacts (silence for
null audio) concatenated, so the durations add up. -/
def assembledSegmentDuration (audioDur : String → ℚ) (rs : List ChunkResult) :
    ℚ :=
  ((sortByStart rs).map (chunkFill audioDur)).sum

/-! ### `app/tasks/stage1_tasks.py` — conditional overlap separation -/

/-- The per-job state dict flowing through stage 1, restricted to the
fields `task_overlap_split` and `task_segment` read or write. -/
structure DiarizationData where
  overlap : Bool
  timestamps : List (ℚ × ℚ)
  speaker_count : ℕ
  audio_path : String
  separated_audio : Option (List String)
deriving DecidableEq, Repr

/-- `overlapping_audio_split` from `app/services/overlap_detector.py`:
returns `[]` without touching anything when `overlap` is false, else runs
the separation collaborator (`separator`, covering the file check and the
demucs call; `.error` models a raised `AudioSplitError`). -/
def overlapping_audio_split (separator : String → Except String (List String))
    (timestamps : List (ℚ × ℚ)) (speaker_count : ℕ) (audio_path : String)
    (overlap : Bool) : Except String (List String) :=
  if !overlap then .ok []
  else separator audio_path

/-- `task_overlap_split` from `app/tasks/stage1_tasks.py`: when the job
overlap flag is set, store the separation output under `separated_audio`;
otherwise return the state unchanged (the service is not called at
all). -/
def task_overlap_split (separator : String → Except String (List String))
    (d : DiarizationData) : Except String DiarizationData :=
  if d.overlap then
    match overlapping_audio_split separator d.timestamps d.speaker_count
        d.audio_path d.overlap with
    | .error e => .error e
    | .ok sep => .ok { d with separated_audio := some sep }
  else .ok d

/-! ### `app/services/translator.py` — tag shielding -/

/-- Leftmost split of `l` around the first occurrence of the substring
`pat`: `some (a, b)` with `l = a ++ pat ++ b` and `a` shortest, `none`
when `pat` does not occur.  Used to model the lazy groups of the tag
regex `(<S:.*?\|G:.*?>)?(.*)`. -/
def splitAtSub (pat : List Char) : List Char → Option (List Char × List Char)
  | [] => if pat.isEmpty then some ([], []) else none
  | c :: cs =>
    if pat.isPrefixOf (c :: cs) then some ([], (c :: cs).drop pat.length)
    else (splitAtSub pat cs).map (fun pr => (c :: pr.1, pr.2))

/-- The tag extraction of `CombinedTranslator.translate_batch`:
`re.search(r'(<S:.*?\|G:.*?>)?(.*)', sub.text, re.DOTALL)` — if the text
starts with `<S:` and a `|G:` followed later by `>` occurs, group 1 is the
shortest such prefix and group 2 the remainder; otherwise group 1 is empty
and group 2 the whole text. -/
def splitTag (s : List Char) : List Char × List Char :=
  if ("<S:".toList).isPrefixOf s then
    match splitAtSub "|G:".toList (s.drop 3) with
    | some (a, rest1) =>
      match splitAtSub ['>'] rest1 with
      | some (b, rest2) =>
        ("<S:".toList ++ a ++ "|G:".toList ++ b ++ ['>'], rest2)
      | none => ([], s)
    | none => ([], s)
  else ([], s)

/-- `l.dropWhile` of whitespace on the left. -/
def stripLeft (l : List Char) : List Char := l.dropWhile wsChar

/-- Drop trailing whitespace. -/
def stripRight (l : List Char) : List Char := (l.reverse.dropWhile wsChar).reverse

/-- Python `str.strip()`. -/
def pyStrip (l : List Char) : List Char := stripRight (stripLeft l)

/-- `f"{tag} {translated}".strip()` — the reattachment formula shared by
the local-model path and the Google fallback. -/
def reattachTag (tag res : List Char) : List Char := pyStrip (tag ++ ' ' :: res)

/-- The local-NLLB path of `CombinedTranslator.translate_batch`: shield
the tag, translate the stripped remainder, reattach. -/
def translate_batch_local (localModel : List Char → List Char)
    (subs : List (List Char)) : List (List Char) :=
  subs.map (fun t =>
    let pr := splitTag t
    reattachTag pr.1 (localModel (pyStrip pr.2)))

/-- `CombinedTranslator.google_fallback`: `callGoogle` is one
`call_google` invocation (its internal `except` already falls back to the
input, so it is total); results are zipped back with the shielded tags. -/
def google_fallback (callGoogle : List Char → List Char)
    (texts tags : List (List Char)) : List (List Char) :=
  List.zipWith (fun tag t => reattachTag tag (callGoogle t)) tags texts

/-- `CombinedTranslator.translate_batch`: try the local model when loaded
(`localModel = some f`; its failure is part of `none`), else fall back to
Google with the shielded tags and stripped texts. -/
def translate_batch (localModel : Option (List Char → List Char))
    (callGoogle : List Char → List Char) (subs : List (List Char)) :
    List (List Char) :=
  match localModel with
  | some f => translate_batch_local f subs
  | none =>
    google_fallback callGoogle (subs.map (fun t => pyStrip (splitTag t).2))
      (subs.map (fun t => (splitTag t).1))

/-! ### `app/services/segment_separation.py` — `SegmentSeparator` -/

/-- One diarization turn as consumed by `segment_separation` (a
timestamp pair zipped with its speaker label and overlap flag). -/
structure DiarTurn where
  start_time : ℚ
  end_time : ℚ
  speaker_no : String
  overlap : Bool
deriving DecidableEq, Repr

/-- One output dict of `segment_separation`. -/
structure SegMeta where
  segment_path : String
  start_time : ℚ
  end_time : ℚ
  speaker_no : String
  overlap : Bool
  duration : ℚ
deriving DecidableEq, Repr

/-- `SegmentSeparator._valid_timestamp`. -/
def valid_timestamp (s e : ℚ) : Bool := !decide (s < 0) && !decide (e ≤ s)

/-- `f"seg_{idx:04d}_{speaker}.wav"` under `output_dir`. -/
def segPathFor (output_dir : String) (idx : ℕ) (speaker : String) : String :=
  let s := toString idx
  output_dir ++ "/seg_" ++ String.mk (List.replicate (4 - s.length) '0') ++ s
    ++ "_" ++ speaker ++ ".wav"

/-- The keyword parameters of `segment_separation` that affect the
returned metadata. -/
structure SegSepParams where
  output_dir : String
  padding : ℚ
  skip_overlaps : Bool
  min_duration : ℚ

/-- The defaults of `segment_separation`, which its only caller
`task_segment` leaves in place. -/
def defaultSegParams : SegSepParams :=
  { output_dir := "segments", padding := 1/10, skip_overlaps := false,
    min_duration := 3/20 }

/-- The `for idx, ((start, end), speaker, overlap) in enumerate(zip(...))`
loop of `segment_separation`.  `ffmpegOk idx` bundles the ffmpeg cut
succeeding and the output file existing with nonzero size; every `continue`
branch silently drops the turn.  The loop-body locals
`start = max(0, start - padding)`, `end = end + padding` and
`duration = end - start` are inlined. -/
def segment_separation_go (P : SegSepParams) (ffmpegOk : ℕ → Bool) :
    ℕ → List DiarTurn → List SegMeta
  | _, [] => []
  | idx, t :: ts =>
    if t.overlap && P.skip_overlaps then
      segment_separation_go P ffmpegOk (idx + 1) ts
    else if !valid_timestamp t.start_time t.end_time then
      segment_separation_go P ffmpegOk (idx + 1) ts
    else if t.end_time + P.padding - max 0 (t.start_time - P.padding) <
        P.min_duration then
      segment_separation_go P ffmpegOk (idx + 1) ts
    else if !ffmpegOk idx then
      segment_separation_go P ffmpegOk (idx + 1) ts
    else
      { segment_path := segPathFor P.output_dir idx t.speaker_no,
        start_time := round3 (max 0 (t.start_time - P.padding)),
        end_time := round3 (t.end_time + P.padding),
        speaker_no := t.speaker_no, overlap := t.overlap,
        duration := round3 (t.end_time + P.padding -
          max 0 (t.start_time - P.padding)) }
        :: segment_separation_go P ffmpegOk (idx + 1) ts

/-- `SegmentSeparator.segment_separation`, after its precondition checks
(audio file present, equal list lengths — the zipped `turns` list models
the equal-length triple). -/
def segment_separation (P : SegSepParams) (ffmpegOk : ℕ → Bool)
    (turns : List DiarTurn) : List SegMeta :=
  segment_separation_go P ffmpegOk 0 turns

/-! ## Theorems -/

/-- The two skip paths of `speech_to_text`: below minimum duration or
below the silence-energy threshold, the result is the empty-text record,
whatever the collaborator outcome. -/
theorem speech_to_text_skip (probe : AudioProbe) (api : Option String)
    (identify : String → String × ℚ)
    (translateApi : String → String → String → String)
    (start_time end_time : ℚ) (speaker_no : String) (overlap : Bool)
    (gender : String) (target_lang : String)
    (h : end_time - start_time < 1/2 ∨ silentSkip probe = true) :
    speech_to_text probe api identify translateApi start_time end_time
        speaker_no overlap gender target_lang =
      .ok { text := "", detected_lang := none, confidence := none,
            start_time := start_time, end_time := end_time,
            speaker_no := speaker_no, overlap := overlap,
            gender := gender } := by
  unfold speech_to_text
  split_ifs with h1 h2
  · rfl
  · rfl
  · rcases h with h | h
    · exact absurd h h1
    · exact absurd h h2

/-- Claim C5: a chunk whose duration is below the 0.5 s minimum, or whose
measured RMS energy is below the 200 silence threshold, is returned as
intentional silence: the transcription collaborator is never consulted
(the result is the same for every collaborator outcome `api`) and the
result carries empty text with the input timing and speaker metadata
intact. -/
theorem C5_short_or_silent_chunk_skips_stt (probe : AudioProbe)
    (identify : String → String × ℚ)
    (translateApi : String → String → String → String)
    (start_time end_time : ℚ) (speaker_no : String) (overlap : Bool)
    (gender : String)
    (h : end_time - start_time < 1/2 ∨ silentSkip probe = true) :
    ∀ api : Option String,
      speech_to_text probe api identify translateApi start_time end_time
          speaker_no overlap gender "en" =
        .ok { text := "", detected_lang := none, confidence := none,
              start_time := start_time, end_time := end_time,
              speaker_no := speaker_no, overlap := overlap,
              gender := gender } :=
  fun api =>
    speech_to_text_skip probe api identify translateApi start_time end_time
      speaker_no overlap gender "en" h

/-- Witness for C5 at a concrete 0.25 s chunk. -/
theorem C5_witness :
    speech_to_text ⟨true, true, 1000, true⟩ (some "hello")
        (fun t => (t, 1)) (fun t _ _ => t) 0 (1/4) "S0" false "male" "en" =
      .ok { text := "", detected_lang := none, confidence := none,
            start_time := 0, end_time := 1/4, speaker_no := "S0",
            overlap := false, gender := "male" } :=
  C5_short_or_silent_chunk_skips_stt ⟨true, true, 1000, true⟩
    (fun t => (t, 1)) (fun t _ _ => t) 0 (1/4) "S0" false "male"
    (Or.inl (by norm_num)) (some "hello")

/-- Claim C9: on every return path of `speech_to_text` (too-short skip,
silence skip, successful transcription) the result's `start_time`,
`end_time`, `speaker_no`, `overlap` and `gender` equal the corresponding
inputs exactly. -/
theorem C9_stt_preserves_metadata (probe : AudioProbe) (api : Option String)
    (identify : String → String × ℚ)
    (translateApi : String → String → String → String)
    (start_time end_time : ℚ) (speaker_no : String) (overlap : Bool)
    (gender : String) (target_lang : String) (r : SttResult)
    (h : speech_to_text probe api identify translateApi start_time end_time
        speaker_no overlap gender target_lang = .ok r) :
    r.start_time = start_time ∧ r.end_time = end_time ∧
      r.speaker_no = speaker_no ∧ r.overlap = overlap ∧ r.gender = gender := by
  unfold speech_to_text at h
  split_ifs at h
  · injection h with h'
    subst h'
    exact ⟨rfl, rfl, rfl, rfl, rfl⟩
  · injection h with h'
    subst h'
    exact ⟨rfl, rfl, rfl, rfl, rfl⟩
  · cases api with
    | none => exact absurd h (by simp)
    | some t =>
      simp only at h
      injection h with h'
      subst h'
      exact ⟨rfl, rfl, rfl, rfl, rfl⟩

/-- Witness for C9 on a concrete successful transcription. -/
theorem C9_witness :
    ({ text := "hello", detected_lang := some "en", confidence := some 1,
       start_time := 0, end_time := 2, speaker_no := "S1", overlap := true,
       gender := "female" } : SttResult).start_time = 0 ∧
      ({ text := "hello", detected_lang := some "en", confidence := some 1,
         start_time := 0, end_time := 2, speaker_no := "S1", overlap := true,
         gender := "female" } : SttResult).end_time = 2 ∧
      ({ text := "hello", detected_lang := some "en", confidence := some 1,
         start_time := 0, end_time := 2, speaker_no := "S1", overlap := true,
         gender := "female" } : SttResult).speaker_no = "S1" ∧
      ({ text := "hello", detected_lang := some "en", confidence := some 1,
         start_time := 0, end_time := 2, speaker_no := "S1", overlap := true,
         gender := "female" } : SttResult).overlap = true ∧
      ({ text := "hello", detected_lang := some "en", confidence := some 1,
         start_time := 0, end_time := 2, speaker_no := "S1", overlap := true,
         gender := "female" } : SttResult).gender = "female" :=
  C9_stt_preserves_metadata ⟨true, true, 1000, true⟩ (some "hello")
    (fun t => ("en", 1)) (fun t _ _ => t) 0 2 "S1" true "female" "en" _
    (by unfold speech_to_text; norm_num [silentSkip])

/-- Claim C6 counterexample: on the empty-aligned-input path
`text_to_speech` rounds the timestamps to two decimals, so with
`start_time = 0.375` the returned start time is `0.38`, not the input —
the claim's "start, end … preserved" fails as stated (the audio path is
null as claimed). -/
theorem C6_counterexample :
    (text_to_speech (fun _ _ => some "p.wav") "" (3/8) 1 "S0" false
        "male").start_time ≠ 3/8 ∧
      (text_to_speech (fun _ _ => some "p.wav") "" (3/8) 1 "S0" false
          "male").audio_path = none := by
  constructor
  · intro h
    have : round2 (3/8) = 3/8 := h
    norm_num [round2, round_eq] at this
  · rfl

/-- Claim C6 (amended): the audio path is null exactly when the cleaned
aligned input is empty or synthesis fails; `speaker_no` and `overlap` are
always preserved exactly; the timestamps are preserved exactly on the
synthesis-failure path but rounded to two decimals on the empty-input
path. -/
theorem C6_null_audio_only_terminal_failure
    (api : String → String → Option String) (text : String) (s e : ℚ)
    (sp : String) (ov : Bool) (g : String) :
    ((text_to_speech api text s e sp ov g).audio_path = none ↔
        (cleanText text).isEmpty = true ∨ api text (voiceFor g) = none) ∧
      (text_to_speech api text s e sp ov g).speaker_no = sp ∧
      (text_to_speech api text s e sp ov g).overlap = ov ∧
      ((cleanText text).isEmpty = true →
        (text_to_speech api text s e sp ov g).start_time = round2 s ∧
          (text_to_speech api text s e sp ov g).end_time = round2 e) ∧
      ((cleanText text).isEmpty = false → api text (voiceFor g) = none →
        (text_to_speech api text s e sp ov g).start_time = s ∧
          (text_to_speech api text s e sp ov g).end_time = e) := by
  unfold text_to_speech
  split_ifs with h1
  · refine ⟨⟨fun _ => Or.inl h1, fun _ => rfl⟩, rfl, rfl, fun _ => ⟨rfl, rfl⟩,
      fun h2 _ => absurd h1 (by simp [h2])⟩
  · rcases hapi : api text (voiceFor g) with _ | p
    · exact ⟨⟨fun _ => Or.inr rfl, fun _ => rfl⟩, rfl, rfl,
        fun h2 => absurd h2 h1, fun _ _ => ⟨rfl, rfl⟩⟩
    · refine ⟨⟨fun hc => absurd hc (by simp), ?_⟩, rfl, rfl,
        fun h2 => absurd h2 h1, fun _ h3 => absurd h3 (by simp [hapi])⟩
      rintro (hc | hn)
      · exact absurd hc h1
      · exact absurd hn (by simp [hapi])

/-- Witness for C6 on a concrete synthesis failure. -/
theorem C6_witness :
    (text_to_speech (fun _ _ => none) "hello" (1/3) 1 "S0" false
        "male").audio_path = none ∧
      (text_to_speech (fun _ _ => none) "hello" (1/3) 1 "S0" false
          "male").start_time = 1/3 := by
  have h := C6_null_audio_only_terminal_failure (fun _ _ => none) "hello"
    (1/3) 1 "S0" false "male"
  exact ⟨h.1.mpr (Or.inr rfl), (h.2.2.2.2 (by decide) rfl).1⟩

/-- Claim C7: when the job-level overlap flag is false, the
overlap-separation stage is a no-op pass-through — `task_overlap_split`
returns its input state unchanged for every separation collaborator (in
particular no `separated_audio` field is written and the subsequent
segmentation stage reads the same `audio_path`), and
`overlapping_audio_split` itself returns `[]` without consulting the
collaborator. -/
theorem C7_no_overlap_is_passthrough
    (separator : String → Except String (List String)) (d : DiarizationData)
    (h : d.overlap = false) :
    task_overlap_split separator d = .ok d ∧
      overlapping_audio_split separator d.timestamps d.speaker_count
          d.audio_path d.overlap = .ok [] ∧
      (∀ x, task_overlap_split separator d = .ok x →
        x.audio_path = d.audio_path) := by
  refine ⟨?_, ?_, ?_⟩
  · unfold task_overlap_split
    rw [h]
    rfl
  · unfold overlapping_audio_split
    rw [h]
    rfl
  · intro x hx
    unfold task_overlap_split at hx
    rw [h] at hx
    injection hx with hx'
    rw [← hx']

/-- Witness for C7 on a concrete job state with the flag off. -/
theorem C7_witness :
    task_overlap_split (fun _ => .error "demucs failed")
        ⟨false, [(0, 1)], 2, "audio.wav", none⟩ =
      .ok ⟨false, [(0, 1)], 2, "audio.wav", none⟩ :=
  (C7_no_overlap_is_passthrough (fun _ => .error "demucs failed")
    ⟨false, [(0, 1)], 2, "audio.wav", none⟩ rfl).1

/-! Helper lemmas about the word splitter. -/

theorem toList_mk (l : List Char) : (String.mk l).toList = l := rfl

theorem takeWhile_append_of_all {p : Char → Bool} (l r : List Char)
    (h : ∀ x ∈ l, p x = true) :
    (l ++ r).takeWhile p = l ++ r.takeWhile p := by
  induction l with
  | nil => rfl
  | cons c cs ih =>
    have hc := h c (List.mem_cons_self c cs)
    simp only [List.cons_append, List.takeWhile_cons, hc, if_true]
    rw [ih fun x hx => h x (List.mem_cons_of_mem c hx)]

theorem dropWhile_append_of_all {p : Char → Bool} (l r : List Char)
    (h : ∀ x ∈ l, p x = true) :
    (l ++ r).dropWhile p = r.dropWhile p := by
  induction l with
  | nil => rfl
  | cons c cs ih =>
    have hc := h c (List.mem_cons_self c cs)
    simp only [List.cons_append, List.dropWhile_cons, hc, if_true]
    exact ih fun x hx => h x (List.mem_cons_of_mem c hx)

theorem splitWs_single (w : List Char) (hne : w ≠ [])
    (hws : ∀ c ∈ w, wsChar c = false) : splitWs w = [w] := by
  cases w with
  | nil => exact absurd rfl hne
  | cons c cs =>
    rw [splitWs]
    rw [if_neg (by simp [hws c (List.mem_cons_self c cs)])]
    have hall : ∀ x ∈ cs, (fun d => !wsChar d) x = true := by
      intro x hx
      simp [hws x (List.mem_cons_of_mem c hx)]
    rw [List.takeWhile_eq_self_iff.mpr hall,
      List.dropWhile_eq_nil_iff.mpr hall, splitWs]

theorem splitWs_word_space (w t : List Char) (hne : w ≠ [])
    (hws : ∀ c ∈ w, wsChar c = false) :
    splitWs (w ++ ' ' :: t) = w :: splitWs t := by
  cases w with
  | nil => exact absurd rfl hne
  | cons c cs =>
    have hall : ∀ x ∈ cs, (fun d => !wsChar d) x = true := by
      intro x hx
      simp [hws x (List.mem_cons_of_mem c hx)]
    rw [List.cons_append, splitWs]
    rw [if_neg (by simp [hws c (List.mem_cons_self c cs)])]
    rw [takeWhile_append_of_all cs (' ' :: t) hall,
      dropWhile_append_of_all cs (' ' :: t) hall]
    have hsp : wsChar ' ' = true := by decide
    have h1 : (' ' :: t).takeWhile (fun d => !wsChar d) = [] := by simp [hsp]
    have h2 : (' ' :: t).dropWhile (fun d => !wsChar d) = ' ' :: t := by
      simp [hsp]
    rw [h1, h2, List.append_nil, splitWs, if_pos hsp]

theorem splitWs_joinWs (ws : List (List Char))
    (h : ∀ w ∈ ws, w ≠ [] ∧ ∀ c ∈ w, wsChar c = false) :
    splitWs (joinWs ws) = ws := by
  induction ws with
  | nil => rw [joinWs, splitWs]
  | cons w ws ih =>
    cases ws with
    | nil =>
      have hw := h w (List.mem_cons_self w [])
      rw [joinWs]
      exact splitWs_single w hw.1 hw.2
    | cons w' ws' =>
      have hw := h w (List.mem_cons_self w _)
      rw [joinWs, splitWs_word_space w _ hw.1 hw.2]
      rw [ih fun x hx => h x (List.mem_cons_of_mem w hx)]

theorem splitWs_sound (l : List Char) :
    ∀ w ∈ splitWs l, w ≠ [] ∧ ∀ c ∈ w, wsChar c = false := by
  induction l using splitWs.induct with
  | case1 =>
    intro w hw
    rw [splitWs] at hw
    cases hw
  | case2 c cs hc ih =>
    intro w hw
    rw [splitWs, if_pos hc] at hw
    exact ih w hw
  | case3 c cs hc ih =>
    intro w hw
    rw [splitWs, if_neg hc] at hw
    rcases List.mem_cons.mp hw with hw | hw
    · subst hw
      refine ⟨by simp, ?_⟩
      intro x hx
      rcases List.mem_cons.mp hx with hx | hx
      · subst hx
        simpa using hc
      · simpa using List.mem_takeWhile_imp hx
    · exact ih w hw

/-- Claim C2 (spec-modelled: `translation_matcher` is absent from the
source tree, so the embedded definition follows spec §4.3 step 4): with
window duration `D = end - start` and rate 3 words/sec, a positive budget
`⌊D*3⌋` yields exactly the first `⌊D*3⌋` input words in order (hence at
most `⌊D*3⌋` words), and a zero budget yields the fixed non-empty
placeholder. -/
theorem C2_duration_budgeted_alignment (text : String) (s e : ℚ)
    (sp : String) (ov : Bool) (g : String) :
    ((0 < (⌊(e - s) * 3⌋).toNat →
      splitWs (translation_matcher text s e sp ov g).aligned_text.toList =
          (splitWs text.toList).take (⌊(e - s) * 3⌋).toNat ∧
        wordCount (translation_matcher text s e sp ov g).aligned_text ≤
          (⌊(e - s) * 3⌋).toNat) ∧
      ((⌊(e - s) * 3⌋).toNat = 0 →
        (translation_matcher text s e sp ov g).aligned_text =
            placeholderText ∧
          (translation_matcher text s e sp ov g).aligned_text ≠ "")) := by
  constructor
  · intro hpos
    have hbud : ¬((⌊(e - s) * 3⌋).toNat = 0) := by omega
    have hsplit :
        splitWs (joinWs ((splitWs text.toList).take (⌊(e - s) * 3⌋).toNat)) =
          (splitWs text.toList).take (⌊(e - s) * 3⌋).toNat := by
      refine splitWs_joinWs _ fun w hw => ?_
      exact splitWs_sound text.toList w (List.take_subset _ _ hw)
    constructor
    · simp only [translation_matcher, if_neg hbud, toList_mk]
      exact hsplit
    · simp only [wordCount, translation_matcher, if_neg hbud, toList_mk]
      rw [hsplit, List.length_take]
      exact min_le_left _ _
  · intro hz
    refine ⟨by simp [translation_matcher, hz], ?_⟩
    simp only [translation_matcher, if_pos hz]
    decide

/-- Witness for C2: a 2-second window keeps the first six words; a
zero-length window yields the placeholder. -/
theorem C2_witness :
    splitWs (translation_matcher "a b c d e f g h" 0 2 "S0" false
          "male").aligned_text.toList =
        (splitWs "a b c d e f g h".toList).take 6 ∧
      (translation_matcher "a b c d e f g h" 0 0 "S0" false
          "male").aligned_text = placeholderText := by
  constructor
  · have h :=
      (C2_duration_budgeted_alignment "a b c d e f g h" 0 2 "S0" false
          "male").1
    have h6 : (⌊((2 : ℚ) - 0) * 3⌋).toNat = 6 := by norm_num; rfl
    rw [h6] at h
    exact (h (by norm_num)).1
  · have h :=
      (C2_duration_budgeted_alignment "a b c d e f g h" 0 0 "S0" false
          "male").2
    have h0 : (⌊((0 : ℚ) - 0) * 3⌋).toNat = 0 := by norm_num
    rw [h0] at h
    exact (h rfl).1

/-! Helper lemmas about three-decimal rounding. -/

theorem round_rat_mono {x y : ℚ} (h : x ≤ y) : round x ≤ round y := by
  rw [round_eq, round_eq]
  exact Int.floor_mono (by linarith)

theorem round3_nonneg {q : ℚ} (h : 0 ≤ q) : 0 ≤ round3 q := by
  unfold round3
  have h0 : round (0 : ℚ) ≤ round (1000 * q) := round_rat_mono (by linarith)
  rw [round_zero] at h0
  have h1 : (0 : ℚ) ≤ ((round (1000 * q) : ℤ) : ℚ) := by exact_mod_cast h0
  linarith

theorem round3_grid_le {q : ℚ} {k : ℤ} (h : (k : ℚ) / 1000 ≤ q) :
    (k : ℚ) / 1000 ≤ round3 q := by
  unfold round3
  have h1 : ((k : ℤ) : ℚ) ≤ 1000 * q := by linarith
  have h2 : (k : ℤ) ≤ round (1000 * q) := by
    have hr := round_rat_mono h1
    rwa [round_intCast] at hr
  have h3 : ((k : ℤ) : ℚ) ≤ ((round (1000 * q) : ℤ) : ℚ) := by
    exact_mod_cast h2
  linarith

theorem round3_gap {q r : ℚ} (h : q + 1 / 1000 ≤ r) :
    round3 q + 1 / 1000 ≤ round3 r := by
  unfold round3
  have h2 : round (1000 * q + ((1 : ℤ) : ℚ)) ≤ round (1000 * r) :=
    round_rat_mono (by push_cast; linarith)
  rw [round_add_int] at h2
  have h3 : ((round (1000 * q) : ℤ) : ℚ) + 1 ≤ ((round (1000 * r) : ℤ) : ℚ) := by
    exact_mod_cast h2
  linarith

/-- Claim C10: with a positive `min_duration`
lying on the millisecond grid (as the default `0.15` does — Python
rounds the reported values to three decimals), every dict returned by
`segment_separation` satisfies `0 ≤ start_time`, `start_time < end_time`
and `min_duration ≤ duration`; turns with invalid timestamps or
sub-minimum padded duration are silently dropped rather than raising, so
the output is at most as long as the input (the embedding is total by
construction). -/
theorem C10_segment_separation_invariants (P : SegSepParams)
    (ffmpegOk : ℕ → Bool) (turns : List DiarTurn)
    (k : ℤ) (hk : 1 ≤ k) (hmin : P.min_duration = (k : ℚ) / 1000) :
    (∀ m ∈ segment_separation P ffmpegOk turns,
      0 ≤ m.start_time ∧ m.start_time < m.end_time ∧
        P.min_duration ≤ m.duration) ∧
      (segment_separation P ffmpegOk turns).length ≤ turns.length := by
  unfold segment_separation
  generalize 0 = idx
  induction turns generalizing idx with
  | nil =>
    rw [segment_separation_go]
    exact ⟨fun m hm => absurd hm (List.not_mem_nil m), le_refl 0⟩
  | cons t ts ih =>
    rw [segment_separation_go]
    split_ifs with h1 h2 h3 h4
    · exact ⟨(ih (idx + 1)).1,
        le_trans (ih (idx + 1)).2 (Nat.le_succ ts.length)⟩
    · exact ⟨(ih (idx + 1)).1,
        le_trans (ih (idx + 1)).2 (Nat.le_succ ts.length)⟩
    · exact ⟨(ih (idx + 1)).1,
        le_trans (ih (idx + 1)).2 (Nat.le_succ ts.length)⟩
    · exact ⟨(ih (idx + 1)).1,
        le_trans (ih (idx + 1)).2 (Nat.le_succ ts.length)⟩
    · have hdur : P.min_duration ≤
          t.end_time + P.padding - max 0 (t.start_time - P.padding) := by
        linarith [not_lt.mp h3]
      have hmin_pos : (1 : ℚ) / 1000 ≤ P.min_duration := by
        rw [hmin]
        have hk' : (1 : ℚ) ≤ (k : ℚ) := by exact_mod_cast hk
        linarith
      constructor
      · intro m hm
        rcases List.mem_cons.mp hm with hm | hm
        · subst hm
          refine ⟨round3_nonneg (le_max_left 0 _), ?_, ?_⟩
          · have hgap : max 0 (t.start_time - P.padding) + 1 / 1000 ≤
                t.end_time + P.padding := by linarith
            have := round3_gap hgap
            simp only
            linarith
          · simp only
            rw [hmin]
            exact round3_grid_le (by rw [← hmin]; exact hdur)
        · exact (ih (idx + 1)).1 m hm
      · simpa using Nat.succ_le_succ (ih (idx + 1)).2

/-- Witness for C10: two turns, one invalid (end before start), one kept;
the kept segment satisfies all three invariants and the output is shorter
than the input. -/
theorem C10_witness :
    (∀ m ∈ segment_separation defaultSegParams (fun _ => true)
        [⟨2, 1, "S0", false⟩, ⟨1, 2, "S1", false⟩],
      0 ≤ m.start_time ∧ m.start_time < m.end_time ∧
        defaultSegParams.min_duration ≤ m.duration) ∧
      (segment_separation defaultSegParams (fun _ => true)
          [⟨2, 1, "S0", false⟩, ⟨1, 2, "S1", false⟩]).length ≤ 2 :=
  C10_segment_separation_invariants defaultSegParams (fun _ => true)
    [⟨2, 1, "S0", false⟩, ⟨1, 2, "S1", false⟩]
    150 (by norm_num) (by norm_num [defaultSegParams])

/-- Claim C4 (spec-modelled: `ChunkingManager.chunk_to_segments` is called
by `process_stage3` but absent from the source tree, so the level-1
reassembly is modelled from spec §4.4): every null-audio chunk contributes
a silence artifact spanning exactly its `[start, end]`, and — whenever the
synthesized artifacts of the non-null chunks match their spans — the
assembled segment artifact's duration equals the exact sum of the chunks'
spans, no matter which chunks failed synthesis. -/
theorem C4_silence_fill_preserves_segment_duration (audioDur : String → ℚ)
    (rs : List ChunkResult)
    (h : ∀ r ∈ rs, ∀ p, r.audio_path = some p →
      audioDur p = r.end_time - r.start_time) :
    (∀ r ∈ rs, r.audio_path = none →
      chunkFill audioDur r = r.end_time - r.start_time) ∧
      assembledSegmentDuration audioDur rs =
        (rs.map (fun r => r.end_time - r.start_time)).sum := by
  constructor
  · intro r _ hnone
    simp [chunkFill, hnone]
  · unfold assembledSegmentDuration sortByStart
    have hperm :
        List.Perm
          ((List.insertionSort
              (fun a b : ChunkResult => a.start_time ≤ b.start_time) rs).map
            (chunkFill audioDur))
          (rs.map (chunkFill audioDur)) :=
      (List.perm_insertionSort _ rs).map _
    rw [hperm.sum_eq]
    congr 1
    refine List.map_congr_left fun r hr => ?_
    unfold chunkFill
    cases hp : r.audio_path with
    | none => rfl
    | some p => exact h r hr p hp

/-- Witness for C4, spec scenario B: chunks `[0,10)` (synthesized, 10 s)
and `[10,15)` (failed, null audio) assemble to exactly 15 s. -/
theorem C4_witness :
    assembledSegmentDuration (fun _ => 10)
        [⟨some "a.wav", 0, 10, "S0", false, some "male"⟩,
          ⟨none, 10, 15, "S0", false, none⟩] = 15 := by
  have h := (C4_silence_fill_preserves_segment_duration (fun _ => 10)
    [⟨some "a.wav", 0, 10, "S0", false, some "male"⟩,
      ⟨none, 10, 15, "S0", false, none⟩] ?_).2
  · rw [h]
    norm_num
  · intro r hr p hp
    rcases List.mem_cons.mp hr with hr | hr
    · subst hr
      norm_num
    · rcases List.mem_cons.mp hr with hr | hr
      · subst hr
        cases hp
      · cases hr

/-- Claim C3 counterexample: two chunks of speaker `S0` vote
`male` (confidence 0.4) then `female` (confidence 0.9).  The votes are
tied, and the spec's tie-break by higher average confidence selects
`female`, but `process_stage2` computes
`Counter(votes).most_common(1)[0][0]`, which ignores confidence and on
ties keeps the first-encountered gender — it commits `male`. -/
theorem C3_counterexample :
    speaker_final_gender
        (fun path => if path = "c1" then some ("male", 2/5)
          else some ("female", 9/10))
        [⟨"c1", 0, 1, "S0", false, none⟩, ⟨"c2", 1, 2, "S0", false, none⟩]
        "S0" = "male" ∧
      specCanonicalGender
          [("male", 2/5), ("female", 9/10)] = some "female" ∧
        speakerVotesWithConf
            (fun path => if path = "c1" then some ("male", 2/5)
              else some ("female", 9/10))
            [⟨"c1", 0, 1, "S0", false, none⟩,
              ⟨"c2", 1, 2, "S0", false, none⟩] "S0" =
          [("male", 2/5), ("female", 9/10)] := by
  refine ⟨by decide, ?_, by rfl⟩
  have hlt : avgConf [("male", (2 : ℚ)/5), ("female", (9 : ℚ)/10)] "male" <
      avgConf [("male", (2 : ℚ)/5), ("female", (9 : ℚ)/10)] "female" := by
    simp +decide [avgConf, List.filter_cons]
    norm_num
  simp only [specCanonicalGender]
  simp +decide [List.argmax, List.argAux, hlt]

/-- Claim C3 (amended): for every speaker with at least one valid vote the
committed gender is the statistical mode of the vote multiset, but ties
are broken in favour of the gender first encountered in chunk order —
classifier confidence is never consulted (the vote list stores none). -/
theorem C3_mode_with_first_occurrence_tiebreak
    (predict : String → Option (String × ℚ)) (chunks : List Chunk)
    (speaker : String)
    (hne : speakerVotes predict chunks speaker ≠ []) :
    ∃ g, speaker_final_gender predict chunks speaker = g ∧
      g ∈ speakerVotes predict chunks speaker ∧
      (∀ x ∈ speakerVotes predict chunks speaker,
        (speakerVotes predict chunks speaker).count x ≤
          (speakerVotes predict chunks speaker).count g) ∧
      (∀ x ∈ speakerVotes predict chunks speaker,
        (speakerVotes predict chunks speaker).count x =
            (speakerVotes predict chunks speaker).count g →
          (speakerVotes predict chunks speaker).indexOf g ≤
            (speakerVotes predict chunks speaker).indexOf x) := by
  rcases hm : mostCommonVote (speakerVotes predict chunks speaker) with _ | g
  · exact absurd (List.argmax_eq_none.mp hm) hne
  · have hmem : g ∈ (speakerVotes predict chunks speaker).argmax
        (fun x => (speakerVotes predict chunks speaker).count x) := hm
    refine ⟨g, ?_, List.argmax_mem hmem, ?_, ?_⟩
    · unfold speaker_final_gender
      rw [hm]
      rfl
    · intro x hx
      exact List.le_of_mem_argmax hx hmem
    · intro x hx heq
      exact List.index_of_argmax hmem hx (le_of_eq heq.symm)

/-- Witness for C3, spec scenario D: votes female, female, male commit
female. -/
theorem C3_witness :
    speaker_final_gender
        (fun path => if path = "c3" then some ("male", 1/2)
          else some ("female", 1/2))
        [⟨"c1", 0, 1, "S0", false, none⟩, ⟨"c2", 1, 2, "S0", false, none⟩,
          ⟨"c3", 2, 3, "S0", false, none⟩] "S0" = "female" := by
  obtain ⟨g, hfinal, hmem, hcount, -⟩ :=
    C3_mode_with_first_occurrence_tiebreak
      (fun path => if path = "c3" then some ("male", 1/2)
        else some ("female", 1/2))
      [⟨"c1", 0, 1, "S0", false, none⟩, ⟨"c2", 1, 2, "S0", false, none⟩,
        ⟨"c3", 2, 3, "S0", false, none⟩] "S0" (by decide)
  rw [hfinal]
  have hv : speakerVotes
      (fun path => if path = "c3" then some ("male", 1/2)
        else some ("female", 1/2))
      [⟨"c1", 0, 1, "S0", false, none⟩, ⟨"c2", 1, 2, "S0", false, none⟩,
        ⟨"c3", 2, 3, "S0", false, none⟩] "S0" =
      ["female", "female", "male"] := by decide
  rw [hv] at hmem hcount
  simp only [List.mem_cons, List.not_mem_nil, or_false] at hmem
  rcases hmem with h | h | h
  · exact h
  · exact h
  · subst h
    exact absurd (hcount "female" (by simp)) (by decide)

/-! Helper lemmas for the tag-shielding proof. -/

theorem isPrefixOf_append_self (l1 l2 : List Char) :
    l1.isPrefixOf (l1 ++ l2) = true := by
  induction l1 with
  | nil => simp [List.isPrefixOf]
  | cons c cs ih => simp [List.isPrefixOf, ih]

theorem splitAtSub_first_occurrence (c0 : Char) (pt a b : List Char)
    (ha : c0 ∉ a) :
    splitAtSub (c0 :: pt) (a ++ ((c0 :: pt) ++ b)) = some (a, b) := by
  induction a with
  | nil =>
    rw [List.nil_append, List.cons_append, splitAtSub, ← List.cons_append]
    rw [if_pos (isPrefixOf_append_self (c0 :: pt) b), List.drop_left]
  | cons c cs ih =>
    have hne : c0 ≠ c := fun h => ha (h ▸ List.mem_cons_self c cs)
    rw [List.cons_append, splitAtSub]
    rw [if_neg (by simp [List.isPrefixOf, hne])]
    rw [ih fun h => ha (List.mem_cons_of_mem c h)]
    rfl

theorem splitTag_wellformed (sp g body : List Char) (hsp : '|' ∉ sp)
    (hg : '>' ∉ g) :
    splitTag ("<S:".toList ++ (sp ++ ("|G:".toList ++ (g ++ (['>'] ++ body))))) =
      ("<S:".toList ++ sp ++ "|G:".toList ++ g ++ ['>'], body) := by
  have e1 : "|G:".toList = '|' :: ['G', ':'] := rfl
  have e2 : (['>'] : List Char) = '>' :: [] := rfl
  have h1 := splitAtSub_first_occurrence '|' ['G', ':'] sp
    (g ++ (['>'] ++ body)) hsp
  have h2 := splitAtSub_first_occurrence '>' [] g body hg
  unfold splitTag
  rw [if_pos (isPrefixOf_append_self "<S:".toList _)]
  have hdrop :
      ("<S:".toList ++ (sp ++ ("|G:".toList ++ (g ++ (['>'] ++ body))))).drop 3 =
        sp ++ ("|G:".toList ++ (g ++ (['>'] ++ body))) := rfl
  rw [hdrop, e1]
  rw [h1]
  dsimp only
  rw [e2] at h2
  rw [h2]

theorem stripLeft_cons_of_not_ws (c : Char) (u : List Char)
    (hc : wsChar c = false) : stripLeft (c :: u) = c :: u := by
  unfold stripLeft
  rw [List.dropWhile_cons, hc]
  rfl

theorem dropWhile_append_cons_of_not_ws (u : List Char) (d : Char)
    (v : List Char) (hd : wsChar d = false) :
    (u ++ d :: v).dropWhile wsChar = u.dropWhile wsChar ++ d :: v := by
  rw [List.dropWhile_append]
  split_ifs with h
  · rw [List.isEmpty_iff.mp h, List.nil_append, List.dropWhile_cons, hd]
    simp
  · rfl

theorem stripRight_append_last_of_not_ws (u : List Char) (d : Char)
    (rest : List Char) (hd : wsChar d = false) :
    stripRight ((u ++ [d]) ++ rest) = (u ++ [d]) ++ stripRight rest := by
  unfold stripRight
  rw [List.reverse_append, List.reverse_append]
  simp only [List.reverse_cons, List.reverse_nil, List.nil_append]
  rw [List.append_assoc, List.singleton_append]
  rw [dropWhile_append_cons_of_not_ws _ d _ hd]
  rw [List.reverse_append, List.reverse_cons]
  simp [List.append_assoc]

theorem reattachTag_eq (u : List Char) (res : List Char) :
    reattachTag (('<' :: u) ++ ['>']) res =
      (('<' :: u) ++ ['>']) ++ stripRight (' ' :: res) := by
  unfold reattachTag pyStrip
  rw [List.cons_append, List.cons_append]
  rw [stripLeft_cons_of_not_ws '<' _ (by decide)]
  rw [← List.cons_append, ← List.cons_append]
  exact stripRight_append_last_of_not_ws ('<' :: u) '>' (' ' :: res) (by decide)

/-- Claim C8: for a text beginning with a structural tag
`<S:speaker|G:gender>` (speaker free of `|`, gender free of `>`, matching
the lazy regex groups), both the local-model path and the Google-fallback
path of `translate_batch` strip the tag, hand the translator only the
stripped remainder, and reattach the identical tag verbatim at the front
of the output. -/
theorem C8_tag_stripped_and_reattached_verbatim (sp g body : List Char)
    (hsp : '|' ∉ sp) (hg : '>' ∉ g)
    (localModel callGoogle : List Char → List Char) :
    translate_batch (some localModel) callGoogle
        ["<S:".toList ++ (sp ++ ("|G:".toList ++ (g ++ (['>'] ++ body))))] =
      [("<S:".toList ++ sp ++ "|G:".toList ++ g ++ ['>']) ++
        stripRight (' ' :: localModel (pyStrip body))] ∧
      translate_batch none callGoogle
          ["<S:".toList ++ (sp ++ ("|G:".toList ++ (g ++ (['>'] ++ body))))] =
        [("<S:".toList ++ sp ++ "|G:".toList ++ g ++ ['>']) ++
          stripRight (' ' :: callGoogle (pyStrip body))] := by
  have hsplit := splitTag_wellformed sp g body hsp hg
  have htag : "<S:".toList ++ sp ++ "|G:".toList ++ g ++ ['>'] =
      ('<' :: ('S' :: ':' :: sp ++ "|G:".toList ++ g)) ++ ['>'] := by
    simp [List.append_assoc]
  constructor
  · simp only [translate_batch, translate_batch_local, List.map, hsplit]
    rw [htag, reattachTag_eq]
  · simp only [translate_batch, google_fallback, List.map, hsplit,
      List.zipWith]
    rw [htag, reattachTag_eq]

/-- Witness for C8: the tag `<S:01|G:Male>` survives both translator
paths verbatim. -/
theorem C8_witness :
    translate_batch (some (fun _ => "Namaste".toList))
        (fun _ => "Hola".toList) ["<S:01|G:Male> Hello".toList] =
      ["<S:01|G:Male> Namaste".toList] ∧
      translate_batch none (fun _ => "Hola".toList)
          ["<S:01|G:Male> Hello".toList] =
        ["<S:01|G:Male> Hola".toList] := by
  have h := C8_tag_stripped_and_reattached_verbatim "01".toList "Male".toList
    " Hello".toList (by decide) (by decide) (fun _ => "Namaste".toList)
    (fun _ => "Hola".toList)
  rcases h with ⟨h1, h2⟩
  constructor
  · rw [show "<S:01|G:Male> Hello".toList =
        "<S:".toList ++ ("01".toList ++ ("|G:".toList ++ ("Male".toList ++
          (['>'] ++ " Hello".toList)))) from by decide]
    rw [h1]
    decide
  · rw [show "<S:01|G:Male> Hello".toList =
        "<S:".toList ++ ("01".toList ++ ("|G:".toList ++ ("Male".toList ++
          (['>'] ++ " Hello".toList)))) from by decide]
    rw [h2]
    decide

/-! Helper lemmas for the fan-out/fan-in claim. -/

theorem task_gender_preserves_rest (predict : String → Option (String × ℚ))
    (c : Chunk) :
    (task_gender predict c).chunk_path = c.chunk_path ∧
      (task_gender predict c).start_time = c.start_time ∧
      (task_gender predict c).end_time = c.end_time ∧
      (task_gender predict c).speaker_no = c.speaker_no ∧
      (task_gender predict c).overlap = c.overlap := by
  unfold task_gender
  split_ifs
  · exact ⟨rfl, rfl, rfl, rfl, rfl⟩
  · cases predict c.chunk_path <;> exact ⟨rfl, rfl, rfl, rfl, rfl⟩

theorem speech_to_text_ok_or_raises (probe : AudioProbe) (api : Option String)
    (identify : String → String × ℚ)
    (translateApi : String → String → String → String) (s e : ℚ)
    (sp : String) (ov : Bool) (g : String) (tl : String) :
    (api = none ∧ ¬(e - s < 1/2) ∧ silentSkip probe = false ∧
        speech_to_text probe api identify translateApi s e sp ov g tl =
          .error "Sarvam STT Error after 3 attempts") ∨
      (∃ r, speech_to_text probe api identify translateApi s e sp ov g tl =
        .ok r) := by
  unfold speech_to_text
  split_ifs with h1 h2
  · exact Or.inr ⟨_, rfl⟩
  · exact Or.inr ⟨_, rfl⟩
  · cases api with
    | none =>
      exact Or.inl ⟨rfl, h1, Bool.not_eq_true _ ▸ Bool.of_not_eq_true h2, rfl⟩
    | some t => exact Or.inr ⟨_, rfl⟩

theorem chordBarrier_error_of_mem_error (us : List (Except String ChunkResult))
    (e : String) (h : Except.error e ∈ us) : (chordBarrier us).isOk = false := by
  induction us with
  | nil => cases h
  | cons u us ih =>
    rcases List.mem_cons.mp h with h | h
    · subst h
      rfl
    · cases hbus : chordBarrier us with
      | ok xs =>
        exfalso
        have hfalse := ih h
        rw [hbus] at hfalse
        simp [Except.isOk, Except.toBool] at hfalse
      | error e' =>
        cases u with
        | ok x =>
          have hx : chordBarrier (Except.ok x :: us) = Except.error e' := by
            unfold chordBarrier
            rw [hbus]
          rw [hx]
          rfl
        | error e2 => rfl

/-- Claim C1 counterexample: a chunk of duration 1 s with audible energy
whose transcription collaborator has exhausted all retries.  Its unit of
work ends in an uncaught exception — no terminal per-chunk result is
recorded — and a chord over this unit and a healthy sibling delivers an
error to the fan-in callback instead of a result list, refuting "a
failure of that unit is recorded as a terminal per-chunk result … the
fan-in barrier still unblocks". -/
theorem C1_counterexample :
    (chunkUnit
        ⟨fun _ => some ("male", 1), fun _ => ⟨true, true, 1000, true⟩,
          fun _ => none, fun t => (t, 1), fun t _ _ => t,
          fun _ _ => some "out.wav"⟩
        ⟨"c1", 0, 1, "S0", false, none⟩).isOk = false ∧
      (chordBarrier
          [chunkUnit
              ⟨fun _ => some ("male", 1), fun _ => ⟨true, true, 1000, true⟩,
                fun _ => none, fun t => (t, 1), fun t _ _ => t,
                fun _ _ => some "out.wav"⟩
              ⟨"c1", 0, 1, "S0", false, none⟩,
            .ok ⟨some "ok.wav", 1, 2, "S1", false, some "male"⟩]).isOk =
        false := by
  have h : chunkUnit
      ⟨fun _ => some ("male", 1), fun _ => ⟨true, true, 1000, true⟩,
        fun _ => none, fun t => (t, 1), fun t _ _ => t,
        fun _ _ => some "out.wav"⟩
      ⟨"c1", 0, 1, "S0", false, none⟩ =
      .error "Sarvam STT Error after 3 attempts" := by
    unfold chunkUnit task_stt task_gender speech_to_text
    norm_num [silentSkip]
  constructor
  · rw [h]
    rfl
  · rw [h]
    rfl

/-- Claim C1 (amended): the per-chunk chain absorbs every failure except
transcription-retry exhaustion.  If the STT collaborator returns a
transcript — or the chunk is skipped as too short or silent — the unit
always records a `ChunkResult`, whatever the gender, translation or
synthesis collaborators do (synthesis failure is recorded as a null audio
path).  But when a transcribable chunk exhausts the STT retries, the unit
aborts with an exception and records no per-chunk result, and the chord
callback then receives an error rather than a result list, so the
downstream merge never runs. -/
theorem C1_unit_failure_handling (env : PipelineEnv) (c : Chunk) :
    (∀ t, env.sttApi c.chunk_path = some t → ∃ r, chunkUnit env c = .ok r) ∧
      ((c.end_time - c.start_time < 1/2 ∨
          silentSkip (env.probes c.chunk_path) = true) →
        ∃ r, chunkUnit env c = .ok r) ∧
      (env.sttApi c.chunk_path = none →
        ¬(c.end_time - c.start_time < 1/2) →
        silentSkip (env.probes c.chunk_path) = false →
        chunkUnit env c = .error "Sarvam STT Error after 3 attempts") ∧
      (∀ us e, Except.error e ∈ us → (chordBarrier us).isOk = false) := by
  obtain ⟨hp, hs, he, hsp, hov⟩ := task_gender_preserves_rest env.predict c
  refine ⟨?_, ?_, ?_, fun us e h => chordBarrier_error_of_mem_error us e h⟩
  · intro t ht
    unfold chunkUnit task_stt
    rw [hp, hs, he, hsp, hov, ht]
    rcases speech_to_text_ok_or_raises (env.probes c.chunk_path) (some t)
        env.identify env.translateApi c.start_time c.end_time c.speaker_no
        c.overlap ((task_gender env.predict c).gender.getD "unknown") "en"
      with ⟨hnone, -⟩ | ⟨r, hr⟩
    · cases hnone
    · rw [hr]
      exact ⟨_, rfl⟩
  · intro hskip
    unfold chunkUnit task_stt
    rw [hp, hs, he, hsp, hov]
    have hsk := speech_to_text_skip (env.probes c.chunk_path)
      (env.sttApi c.chunk_path) env.identify env.translateApi c.start_time
      c.end_time c.speaker_no c.overlap
      ((task_gender env.predict c).gender.getD "unknown") "en" hskip
    rw [hsk]
    exact ⟨_, rfl⟩
  · intro hnone hdur hsil
    unfold chunkUnit task_stt
    rw [hp, hs, he, hsp, hov, hnone]
    rcases speech_to_text_ok_or_raises (env.probes c.chunk_path) none
        env.identify env.translateApi c.start_time c.end_time c.speaker_no
        c.overlap ((task_gender env.predict c).gender.getD "unknown") "en"
      with ⟨-, -, -, herr⟩ | ⟨r, hr⟩
    · rw [herr]
    · exfalso
      unfold speech_to_text at hr
      rw [if_neg hdur, if_neg (by simp [hsil])] at hr
      cases hr

/-- Witness for C1: on a concrete environment whose STT collaborator has
failed, a 1-second audible chunk's unit aborts with the raised error. -/
theorem C1_witness :
    chunkUnit
        ⟨fun _ => some ("female", 1), fun _ => ⟨true, true, 500, true⟩,
          fun _ => none, fun t => (t, 1), fun t _ _ => t,
          fun _ _ => some "o.wav"⟩
        ⟨"c9", 2, 3, "S1", true, none⟩ =
      .error "Sarvam STT Error after 3 attempts" :=
  (C1_unit_failure_handling
      ⟨fun _ => some ("female", 1), fun _ => ⟨true, true, 500, true⟩,
        fun _ => none, fun t => (t, 1), fun t _ _ => t,
        fun _ _ => some "o.wav"⟩
      ⟨"c9", 2, 3, "S1", true, none⟩).2.2.1 rfl (by norm_num) (by decide)

end AutoDub
